import Mathlib

/-!
Verification development for the `ip-lookup` script (src/ip-lookup.py).

Shallow embedding: the provider adapters, the fallback resolver
(`lookup_ip_with_fallback`), the orchestrator (`process_file`) and the CLI
entry (`main`) are translated into pure Lean functions.  External effects
are modelled explicitly:

* each adapter's single HTTP request is modelled by an `HttpResp` value
  describing what the network returned (a parsed JSON payload, an HTTP
  error status caught as `urllib.error.HTTPError`, or any other exception
  caught by the generic `except Exception` handler — this covers network
  errors and malformed JSON alike, since `json.loads` raises inside the
  `try` block);
* Python's `str`-or-`None` values are `Option String`;
* the module-level globals (`API_PROVIDERS[..]['failed']` flags and
  `current_provider_index`) become an explicit `ProcState` threaded through
  the functions;
* the platform services the script calls (`ipaddress.ip_address` validity
  check, `socket.gethostbyname`, and the per-(entry, provider) adapter
  outcomes) are an `Env` of oracles, since they are library/network
  behaviour, not repository code;
* observable side effects (DNS resolution, provider invocations, reaching
  the pacing step, actually sleeping) are recorded as an explicit `Event`
  trace.
-/

/-- One entry of the `API_PROVIDERS` table: its name and inter-request
delay.  The mutable `failed` flag lives in `ProcState`, and the `func`
member is supplied by the environment oracle. -/
structure ProviderInfo where
  name : String
  delay : Rat
  deriving DecidableEq, Repr

/-- The triple `(owner, region, success)` returned by every adapter
function.  Rate-limit paths return `(None, None, False)`; all other paths
return two strings and `True`. -/
structure AdapterTriple where
  owner : Option String
  region : Option String
  success : Bool
  deriving DecidableEq, Repr

/-- What one `urllib.request.urlopen` call produced, as seen by the
adapter's `try`/`except` structure: a parsed payload of type `α`
(HTTP 200 with JSON that parsed), an `HTTPError` with a status code, or
any other exception (network error, timeout, malformed JSON, ...) caught
by `except Exception as e`, carrying `str(e)`. -/
inductive HttpResp (α : Type) where
  | ok (data : α)
  | httpError (code : Nat)
  | exn (msg : String)
  deriving DecidableEq, Repr

/-- Payload fields read by `lookup_ipapi_com`.  `none` models an absent
key (Python `dict.get` returning the default). -/
structure IpapiComData where
  status : Option String
  country : Option String
  regionName : Option String
  org : Option String
  deriving DecidableEq, Repr

/-- `lookup_ipapi_com` (src/ip-lookup.py lines 25-43), as a function of
the network response. -/
def lookup_ipapi_com (resp : HttpResp IpapiComData) : AdapterTriple :=
  match resp with
  | .ok data =>
      if data.status = some "success" then
        ⟨some (data.org.getD "Unknown"),
         some (data.regionName.getD "Unknown" ++ ", " ++ data.country.getD "Unknown"),
         true⟩
      else
        ⟨some "Unknown", some "Unknown", true⟩
  | .httpError code =>
      if code = 429 then ⟨none, none, false⟩
      else ⟨some ("HTTP Error: " ++ toString code), some "N/A", true⟩
  | .exn msg => ⟨some ("Error: " ++ msg), some "N/A", true⟩

/-- Payload fields read by `lookup_ipapi_co`.  `error` records whether the
key `'error'` is present in the response dict. -/
structure IpapiCoData where
  error : Bool
  reason : Option String
  org : Option String
  region : Option String
  country_name : Option String
  deriving DecidableEq, Repr

/-- `lookup_ipapi_co` (src/ip-lookup.py lines 45-68). -/
def lookup_ipapi_co (resp : HttpResp IpapiCoData) : AdapterTriple :=
  match resp with
  | .ok data =>
      if data.error then
        if data.reason = some "RateLimited" then ⟨none, none, false⟩
        else ⟨some "Unknown", some "Unknown", true⟩
      else
        ⟨some (data.org.getD "Unknown"),
         some (data.region.getD "Unknown" ++ ", " ++ data.country_name.getD "Unknown"),
         true⟩
  | .httpError code =>
      if code = 429 then ⟨none, none, false⟩
      else ⟨some ("HTTP Error: " ++ toString code), some "N/A", true⟩
  | .exn msg => ⟨some ("Error: " ++ msg), some "N/A", true⟩

/-- The `connection` sub-dict of an ipwho.is response. -/
structure IpwhoisConnection where
  org : Option String
  isp : Option String
  deriving DecidableEq, Repr

/-- Payload fields read by `lookup_ipwhois_io`.  `success` is the value of
`data.get('success', False)`; `connection = none` models an absent
`'connection'` key (the code then uses the empty dict). -/
structure IpwhoisIoData where
  success : Bool
  connection : Option IpwhoisConnection
  region : Option String
  country : Option String
  deriving DecidableEq, Repr

/-- `lookup_ipwhois_io` (src/ip-lookup.py lines 70-92). -/
def lookup_ipwhois_io (resp : HttpResp IpwhoisIoData) : AdapterTriple :=
  match resp with
  | .ok data =>
      if !data.success then
        ⟨some "Unknown", some "Unknown", true⟩
      else
        let conn := data.connection.getD ⟨none, none⟩
        let owner0 := conn.org.getD "Unknown"
        let owner := if owner0 = "Unknown" ∨ owner0 = "" then conn.isp.getD "Unknown" else owner0
        ⟨some owner,
         some (data.region.getD "Unknown" ++ ", " ++ data.country.getD "Unknown"),
         true⟩
  | .httpError code =>
      if code = 429 then ⟨none, none, false⟩
      else ⟨some ("HTTP Error: " ++ toString code), some "N/A", true⟩
  | .exn msg => ⟨some ("Error: " ++ msg), some "N/A", true⟩

/-- Payload fields read by `lookup_ipwhois_app` (org/isp at top level). -/
structure IpwhoisAppData where
  success : Bool
  org : Option String
  isp : Option String
  region : Option String
  country : Option String
  deriving DecidableEq, Repr

/-- `lookup_ipwhois_app` (src/ip-lookup.py lines 94-115). -/
def lookup_ipwhois_app (resp : HttpResp IpwhoisAppData) : AdapterTriple :=
  match resp with
  | .ok data =>
      if !data.success then
        ⟨some "Unknown", some "Unknown", true⟩
      else
        let owner0 := data.org.getD "Unknown"
        let owner := if owner0 = "Unknown" ∨ owner0 = "" then data.isp.getD "Unknown" else owner0
        ⟨some owner,
         some (data.region.getD "Unknown" ++ ", " ++ data.country.getD "Unknown"),
         true⟩
  | .httpError code =>
      if code = 429 then ⟨none, none, false⟩
      else ⟨some ("HTTP Error: " ++ toString code), some "N/A", true⟩
  | .exn msg => ⟨some ("Error: " ++ msg), some "N/A", true⟩

/-- The static part of the `API_PROVIDERS` table (names and delays, in
registration order); the initial `failed = False` flags are in
`initState`. -/
def API_PROVIDERS : List ProviderInfo :=
  [⟨"ip-api.com", 1.5⟩, ⟨"ipapi.co", 2⟩, ⟨"ipwho.is", 1⟩, ⟨"ipwhois.app", 1⟩]

/-- The mutable module-level state: the per-provider `failed` flags and
`current_provider_index`. -/
structure ProcState where
  failed : List Bool
  cursor : Nat
  deriving DecidableEq, Repr

/-- The state at process start: every provider enabled, cursor 0. -/
def initState (ps : List ProviderInfo) : ProcState :=
  ⟨ps.map (fun _ => false), 0⟩

/-- The 4-tuple `(owner, region, api_used, delay)` returned by
`lookup_ip_with_fallback`. -/
structure FallbackResult where
  owner : Option String
  region : Option String
  api_used : String
  delay : Rat
  deriving DecidableEq, Repr

/-- The sentinel `("All APIs exhausted", "N/A", "None", 0)` returned when
the attempt budget is exhausted. -/
def sentinelResult : FallbackResult :=
  ⟨some "All APIs exhausted", some "N/A", "None", 0⟩

/-- Everything one call to `lookup_ip_with_fallback` produces: the
returned 4-tuple, the state after the call, the list of provider indices
whose `func` was actually invoked (in invocation order), and the number of
loop iterations entered (the final value of the `attempts` counter, plus
one if the loop exited by returning from a provider). -/
structure LookupOut where
  res : FallbackResult
  st : ProcState
  calls : List Nat
  examined : Nat
  deriving DecidableEq, Repr

/-- The `while attempts < len(API_PROVIDERS)` loop of
`lookup_ip_with_fallback` (src/ip-lookup.py lines 131-155), with
`fuel = len(API_PROVIDERS) - attempts` as the structural measure.
`oracle i` is what provider i's `func(ip)` returns for this address. -/
def lookupLoop (ps : List ProviderInfo) (oracle : Nat → AdapterTriple) :
    Nat → ProcState → LookupOut
  | 0, st => ⟨sentinelResult, st, [], 0⟩
  | fuel + 1, st =>
      let i := st.cursor
      if st.failed.getD i false then
        let out := lookupLoop ps oracle fuel ⟨st.failed, (i + 1) % ps.length⟩
        ⟨out.res, out.st, out.calls, out.examined + 1⟩
      else
        let t := oracle i
        if t.success then
          ⟨⟨t.owner, t.region, (ps.getD i ⟨"", 0⟩).name, (ps.getD i ⟨"", 0⟩).delay⟩,
           st, [i], 1⟩
        else
          let out := lookupLoop ps oracle fuel ⟨st.failed.set i true, (i + 1) % ps.length⟩
          ⟨out.res, out.st, i :: out.calls, out.examined + 1⟩

/-- `lookup_ip_with_fallback` (src/ip-lookup.py lines 127-155). -/
def lookup_ip_with_fallback (ps : List ProviderInfo) (oracle : Nat → AdapterTriple)
    (st : ProcState) : LookupOut :=
  lookupLoop ps oracle ps.length st

/-- The platform services the orchestrator consumes, as oracles:
`validIp s` is `is_valid_ip(s)` (the stdlib `ipaddress.ip_address`
validity check), `dns h` is `socket.gethostbyname(h)` (`none` for a
`gaierror`, i.e. `resolve_dns` returning `None`), and `adapters i p` is
what provider p's lookup function returns for the i-th entry of the run
(the entry determines the queried IP, so indexing by entry is fully
general for a deterministic run). -/
structure Env where
  validIp : String → Bool
  dns : String → Option String
  adapters : Nat → Nat → AdapterTriple

/-- Observable side effects of the run, in order: a `socket.gethostbyname`
call, a provider `func` invocation (network call), control reaching the
pacing step at the bottom of the loop body, and an actual `time.sleep`. -/
inductive Event where
  | dnsCall (host : String)
  | providerCall (idx : Nat)
  | pacingStep (delay : Rat)
  | sleep (delay : Rat)
  deriving DecidableEq, Repr

/-- The provider invocations recorded in a trace. -/
def providerCalls (evs : List Event) : List Nat :=
  evs.filterMap fun e => match e with | .providerCall j => some j | _ => none

/-- The DNS resolutions recorded in a trace. -/
def dnsCalls (evs : List Event) : List String :=
  evs.filterMap fun e => match e with | .dnsCall h => some h | _ => none

/-- One result record appended to `results` (src/ip-lookup.py lines
198-204 and 214-220). -/
structure Record where
  input : String
  ip : String
  owner : Option String
  region : Option String
  api_used : String
  deriving DecidableEq, Repr

/-- Python truthiness test `not ip` on a `str`-or-`None` value: true for
`None` and for the empty string. -/
def pyFalsy : Option String → Bool
  | none => true
  | some s => s = ""

/-- The events produced by the pacing step at the bottom of the per-entry
loop body (src/ip-lookup.py lines 222-224): control reaches the step, and
sleeps only when `delay > 0 and i < len(entries)`. -/
def pacingEvents (d : Rat) (i total : Nat) : List Event :=
  Event.pacingStep d :: (if 0 < d ∧ i < total then [Event.sleep d] else [])

/-- The body of the per-entry loop of `process_file` (src/ip-lookup.py
lines 187-224) for the i-th entry (1-based, as in `enumerate(entries, 1)`)
out of `total`. -/
def processEntry (ps : List ProviderInfo) (env : Env) (total i : Nat) (entry : String)
    (st : ProcState) : Record × ProcState × List Event :=
  if env.validIp entry then
    let out := lookup_ip_with_fallback ps (env.adapters i) st
    (⟨entry, entry, out.res.owner, out.res.region, out.res.api_used⟩, out.st,
     out.calls.map Event.providerCall ++ pacingEvents out.res.delay i total)
  else
    let r := env.dns entry
    if pyFalsy r then
      (⟨entry, "N/A", some "DNS resolution failed", some "N/A", "N/A"⟩, st,
       [Event.dnsCall entry])
    else
      let ip := r.getD ""
      let out := lookup_ip_with_fallback ps (env.adapters i) st
      (⟨entry, ip, out.res.owner, out.res.region, out.res.api_used⟩, out.st,
       Event.dnsCall entry :: (out.calls.map Event.providerCall ++ pacingEvents out.res.delay i total))

/-- The per-entry loop of `process_file`, threading the module-level
state and accumulating records and events in order. -/
def runEntries (ps : List ProviderInfo) (env : Env) (total : Nat) :
    List String → Nat → ProcState → List Record × ProcState × List Event
  | [], _, st => ([], st, [])
  | e :: rest, i, st =>
      let r := processEntry ps env total i e st
      let rs := runEntries ps env total rest (i + 1) r.2.1
      (r.1 :: rs.1, rs.2.1, r.2.2 ++ rs.2.2)

/-- `[line.strip() for line in f if line.strip()]`: the stripped non-blank
lines, in order. -/
def nonBlankLines (lines : List String) : List String :=
  (lines.map String.trim).filter (fun s => s ≠ "")

/-- `process_file` (src/ip-lookup.py lines 172-243).  The input file is
`none` when opening it raises (missing or unreadable): the function then
reports the error and returns with no results and no events.  Report
formatting/writing has no bearing on the claims and is omitted. -/
def process_file (ps : List ProviderInfo) (env : Env) (file : Option (List String))
    (st : ProcState) : Option (List Record) × ProcState × List Event :=
  match file with
  | none => (none, st, [])
  | some lines =>
      let entries := nonBlankLines lines
      let out := runEntries ps env entries.length entries 1 st
      (some out.1, out.2.1, out.2.2)

/-- `main` (src/ip-lookup.py lines 245-263): with a wrong argument count
it prints usage and calls `sys.exit(1)`; otherwise it runs `process_file`
on the freshly-initialised global state and the process then terminates
normally, i.e. with exit code 0.  The first component is the process exit
code. -/
def mainRun (argc : Nat) (env : Env) (file : Option (List String)) :
    Nat × Option (List Record) × ProcState × List Event :=
  if argc ≠ 3 then (1, none, initState API_PROVIDERS, [])
  else
    let out := process_file API_PROVIDERS env file (initState API_PROVIDERS)
    (0, out.1, out.2.1, out.2.2)

/-! ### Helper lemmas -/

theorem getD_set_true_mono (l : List Bool) (i j : Nat)
    (h : l.getD j false = true) : (l.set i true).getD j false = true := by
  induction l generalizing i j with
  | nil => simp [List.getD] at h
  | cons a as ih =>
    cases i with
    | zero =>
      cases j with
      | zero => simp
      | succ j => simpa using h
    | succ i =>
      cases j with
      | zero => simpa using h
      | succ j => exact ih i j (by simpa using h)

theorem getD_set_true_self (l : List Bool) (i : Nat) (h : i < l.length) :
    (l.set i true).getD i false = true := by
  induction l generalizing i with
  | nil => simp at h
  | cons a as ih =>
    cases i with
    | zero => simp
    | succ i => simpa using ih i (by simpa using h)

theorem lookupLoop_failed_mono (ps : List ProviderInfo) (oracle : Nat → AdapterTriple)
    (fuel : Nat) (st : ProcState) (j : Nat)
    (h : st.failed.getD j false = true) :
    (lookupLoop ps oracle fuel st).st.failed.getD j false = true := by
  induction fuel generalizing st with
  | zero => simpa [lookupLoop] using h
  | succ fuel ih =>
    simp only [lookupLoop]
    by_cases hf : st.failed.getD st.cursor false = true
    · simp only [hf, if_true]
      exact ih _ h
    · simp only [hf, if_false, Bool.false_eq_true]
      by_cases hs : (oracle st.cursor).success = true
      · simp only [hs, if_true]
        exact h
      · simp only [hs, if_false, Bool.false_eq_true]
        exact ih _ (getD_set_true_mono _ _ _ h)

theorem lookupLoop_not_called_of_failed (ps : List ProviderInfo)
    (oracle : Nat → AdapterTriple) (fuel : Nat) (st : ProcState) (j : Nat)
    (h : st.failed.getD j false = true) :
    j ∉ (lookupLoop ps oracle fuel st).calls := by
  induction fuel generalizing st with
  | zero => simp [lookupLoop]
  | succ fuel ih =>
    simp only [lookupLoop]
    by_cases hf : st.failed.getD st.cursor false = true
    · simp only [hf, if_true]
      exact ih _ h
    · have hne : j ≠ st.cursor := by
        intro he; rw [he] at h; exact hf h
      simp only [hf, if_false, Bool.false_eq_true]
      by_cases hs : (oracle st.cursor).success = true
      · simp only [hs, if_true, List.mem_singleton]
        exact hne
      · simp only [hs, if_false, Bool.false_eq_true, List.mem_cons, not_or]
        exact ⟨hne, ih _ (getD_set_true_mono _ _ _ h)⟩

theorem lookupLoop_ratelimited_failed (ps : List ProviderInfo)
    (oracle : Nat → AdapterTriple) (fuel : Nat) (st : ProcState) (j : Nat)
    (hlen : st.failed.length = ps.length) (hc : st.cursor < ps.length)
    (hrl : (oracle j).success = false)
    (hj : j ∈ (lookupLoop ps oracle fuel st).calls) :
    (lookupLoop ps oracle fuel st).st.failed.getD j false = true := by
  induction fuel generalizing st with
  | zero => simp [lookupLoop] at hj
  | succ fuel ih =>
    have hN : 0 < ps.length := Nat.lt_of_le_of_lt (Nat.zero_le _) hc
    simp only [lookupLoop] at hj ⊢
    by_cases hf : st.failed.getD st.cursor false = true
    · simp only [hf, if_true] at hj ⊢
      exact ih _ hlen (Nat.mod_lt _ hN) hj
    · simp only [hf, if_false, Bool.false_eq_true] at hj ⊢
      by_cases hs : (oracle st.cursor).success = true
      · simp only [hs, if_true, List.mem_singleton] at hj ⊢
        rw [hj] at hrl
        rw [hrl] at hs
        exact absurd hs (by simp)
      · simp only [hs, if_false, Bool.false_eq_true, List.mem_cons] at hj ⊢
        rcases hj with hj | hj
        · subst hj
          exact lookupLoop_failed_mono _ _ _ _ _
            (getD_set_true_self _ _ (hlen ▸ hc))
        · exact ih _ (by simpa using hlen) (Nat.mod_lt _ hN) hj

theorem lookupLoop_all_failed (ps : List ProviderInfo)
    (oracle : Nat → AdapterTriple) (fuel : Nat) (st : ProcState)
    (hall : ∀ k, k < ps.length → st.failed.getD k false = true)
    (hc : st.cursor < ps.length) :
    lookupLoop ps oracle fuel st =
      ⟨sentinelResult, ⟨st.failed, (st.cursor + fuel) % ps.length⟩, [], fuel⟩ := by
  induction fuel generalizing st with
  | zero =>
    simp only [lookupLoop, Nat.add_zero, Nat.mod_eq_of_lt hc]
  | succ fuel ih =>
    have hN : 0 < ps.length := Nat.lt_of_le_of_lt (Nat.zero_le _) hc
    have hf : st.failed.getD st.cursor false = true := hall _ hc
    simp only [lookupLoop, hf, if_true]
    rw [ih ⟨st.failed, (st.cursor + 1) % ps.length⟩ hall (Nat.mod_lt _ hN)]
    simp [Nat.mod_add_mod, Nat.add_assoc, Nat.add_comm 1 fuel]

theorem lookupLoop_wf (ps : List ProviderInfo) (oracle : Nat → AdapterTriple)
    (fuel : Nat) (st : ProcState)
    (hlen : st.failed.length = ps.length) (hc : st.cursor < ps.length) :
    (lookupLoop ps oracle fuel st).st.failed.length = ps.length ∧
    (lookupLoop ps oracle fuel st).st.cursor < ps.length := by
  induction fuel generalizing st with
  | zero => exact ⟨hlen, hc⟩
  | succ fuel ih =>
    have hN : 0 < ps.length := Nat.lt_of_le_of_lt (Nat.zero_le _) hc
    simp only [lookupLoop]
    by_cases hf : st.failed.getD st.cursor false = true
    · simp only [hf, if_true]
      exact ih _ hlen (Nat.mod_lt _ hN)
    · simp only [hf, if_false, Bool.false_eq_true]
      by_cases hs : (oracle st.cursor).success = true
      · simp only [hs, if_true]
        exact ⟨hlen, hc⟩
      · simp only [hs, if_false, Bool.false_eq_true]
        exact ih _ (by simpa using hlen) (Nat.mod_lt _ hN)

theorem lookupLoop_examined_le (ps : List ProviderInfo)
    (oracle : Nat → AdapterTriple) (fuel : Nat) (st : ProcState) :
    (lookupLoop ps oracle fuel st).examined ≤ fuel := by
  induction fuel generalizing st with
  | zero => simp [lookupLoop]
  | succ fuel ih =>
    simp only [lookupLoop]
    by_cases hf : st.failed.getD st.cursor false = true
    · simp only [hf, if_true]
      exact Nat.succ_le_succ (ih _)
    · simp only [hf, if_false, Bool.false_eq_true]
      by_cases hs : (oracle st.cursor).success = true
      · simp only [hs, if_true]
        exact Nat.succ_le_succ (Nat.zero_le _)
      · simp only [hs, if_false, Bool.false_eq_true]
        exact Nat.succ_le_succ (ih _)

theorem lookupLoop_calls_le (ps : List ProviderInfo)
    (oracle : Nat → AdapterTriple) (fuel : Nat) (st : ProcState) :
    (lookupLoop ps oracle fuel st).calls.length ≤ fuel := by
  induction fuel generalizing st with
  | zero => simp [lookupLoop]
  | succ fuel ih =>
    simp only [lookupLoop]
    by_cases hf : st.failed.getD st.cursor false = true
    · simp only [hf, if_true]
      exact Nat.le_succ_of_le (ih _)
    · simp only [hf, if_false, Bool.false_eq_true]
      by_cases hs : (oracle st.cursor).success = true
      · simp only [hs, if_true, List.length_singleton]
        exact Nat.succ_le_succ (Nat.zero_le _)
      · simp only [hs, if_false, Bool.false_eq_true, List.length_cons]
        exact Nat.succ_le_succ (ih _)

theorem lookupLoop_res_shape (ps : List ProviderInfo)
    (oracle : Nat → AdapterTriple) (fuel : Nat) (st : ProcState)
    (hc : st.cursor < ps.length) :
    (lookupLoop ps oracle fuel st).res = sentinelResult ∨
    ∃ j, j ∈ (lookupLoop ps oracle fuel st).calls ∧ j < ps.length ∧
      (oracle j).success = true ∧
      (lookupLoop ps oracle fuel st).res =
        ⟨(oracle j).owner, (oracle j).region,
         (ps.getD j ⟨"", 0⟩).name, (ps.getD j ⟨"", 0⟩).delay⟩ := by
  induction fuel generalizing st with
  | zero => exact Or.inl rfl
  | succ fuel ih =>
    have hN : 0 < ps.length := Nat.lt_of_le_of_lt (Nat.zero_le _) hc
    simp only [lookupLoop]
    by_cases hf : st.failed.getD st.cursor false = true
    · simp only [hf, if_true]
      exact ih _ (Nat.mod_lt _ hN)
    · simp only [hf, if_false, Bool.false_eq_true]
      by_cases hs : (oracle st.cursor).success = true
      · simp only [hs, if_true]
        exact Or.inr ⟨st.cursor, List.mem_singleton_self _, hc, hs, rfl⟩
      · simp only [hs, if_false, Bool.false_eq_true]
        rcases ih ⟨st.failed.set st.cursor true, (st.cursor + 1) % ps.length⟩
            (Nat.mod_lt _ hN) with h | ⟨j, hjc, hjlt, hjs, hjr⟩
        · exact Or.inl h
        · exact Or.inr ⟨j, List.mem_cons_of_mem _ hjc, hjlt, hjs, hjr⟩

theorem lookupLoop_first_call (ps : List ProviderInfo)
    (oracle : Nat → AdapterTriple) (fuel : Nat) (st : ProcState)
    (hf : st.failed.getD st.cursor false = false) :
    (lookupLoop ps oracle (fuel + 1) st).calls.head? = some st.cursor := by
  simp only [lookupLoop, hf, Bool.false_eq_true, if_false]
  by_cases hs : (oracle st.cursor).success = true
  · simp [hs]
  · simp [hs]

theorem lookupLoop_success_step (ps : List ProviderInfo)
    (oracle : Nat → AdapterTriple) (fuel : Nat) (st : ProcState)
    (hf : st.failed.getD st.cursor false = false)
    (hs : (oracle st.cursor).success = true) :
    lookupLoop ps oracle (fuel + 1) st =
      ⟨⟨(oracle st.cursor).owner, (oracle st.cursor).region,
        (ps.getD st.cursor ⟨"", 0⟩).name, (ps.getD st.cursor ⟨"", 0⟩).delay⟩,
       st, [st.cursor], 1⟩ := by
  simp only [lookupLoop, hf, Bool.false_eq_true, if_false, hs, if_true]

theorem providerCalls_append (a b : List Event) :
    providerCalls (a ++ b) = providerCalls a ++ providerCalls b :=
  List.filterMap_append _ _ _

theorem providerCalls_map_calls (l : List Nat) :
    providerCalls (l.map Event.providerCall) = l := by
  induction l with
  | nil => rfl
  | cons a as ih => simpa [providerCalls, List.filterMap_cons] using ih

theorem providerCalls_pacing (d : Rat) (i total : Nat) :
    providerCalls (pacingEvents d i total) = [] := by
  by_cases h : 0 < d ∧ i < total
  · simp [pacingEvents, providerCalls, h, List.filterMap_cons]
  · simp [pacingEvents, providerCalls, h, List.filterMap_cons]

theorem providerCalls_cons_dns (h : String) (l : List Event) :
    providerCalls (Event.dnsCall h :: l) = providerCalls l := by
  simp [providerCalls, List.filterMap_cons]

theorem processEntry_calls_sub (ps : List ProviderInfo) (env : Env)
    (total i : Nat) (e : String) (st : ProcState) (j : Nat)
    (hj : j ∈ providerCalls (processEntry ps env total i e st).2.2) :
    j ∈ (lookup_ip_with_fallback ps (env.adapters i) st).calls := by
  by_cases hv : env.validIp e = true
  · have h1 : (processEntry ps env total i e st).2.2 =
        (lookup_ip_with_fallback ps (env.adapters i) st).calls.map Event.providerCall ++
          pacingEvents (lookup_ip_with_fallback ps (env.adapters i) st).res.delay i total := by
      simp [processEntry, hv]
    rw [h1, providerCalls_append, providerCalls_map_calls, providerCalls_pacing,
      List.append_nil] at hj
    exact hj
  · by_cases hd : pyFalsy (env.dns e) = true
    · have h1 : (processEntry ps env total i e st).2.2 = [Event.dnsCall e] := by
        simp [processEntry, hv, hd]
      rw [h1] at hj
      simp [providerCalls, List.filterMap_cons] at hj
    · have h1 : (processEntry ps env total i e st).2.2 =
          Event.dnsCall e ::
            ((lookup_ip_with_fallback ps (env.adapters i) st).calls.map Event.providerCall ++
              pacingEvents (lookup_ip_with_fallback ps (env.adapters i) st).res.delay i total) := by
        simp [processEntry, hv, hd]
      rw [h1, providerCalls_cons_dns, providerCalls_append, providerCalls_map_calls,
        providerCalls_pacing, List.append_nil] at hj
      exact hj

theorem processEntry_state (ps : List ProviderInfo) (env : Env)
    (total i : Nat) (e : String) (st : ProcState) :
    (processEntry ps env total i e st).2.1 = st ∨
    (processEntry ps env total i e st).2.1 =
      (lookup_ip_with_fallback ps (env.adapters i) st).st := by
  by_cases hv : env.validIp e = true
  · exact Or.inr (by simp [processEntry, hv])
  · by_cases hd : pyFalsy (env.dns e) = true
    · exact Or.inl (by simp [processEntry, hv, hd])
    · exact Or.inr (by simp [processEntry, hv, hd])

theorem processEntry_failed_mono (ps : List ProviderInfo) (env : Env)
    (total i : Nat) (e : String) (st : ProcState) (j : Nat)
    (h : st.failed.getD j false = true) :
    (processEntry ps env total i e st).2.1.failed.getD j false = true := by
  rcases processEntry_state ps env total i e st with hst | hst
  · rw [hst]; exact h
  · rw [hst]; exact lookupLoop_failed_mono _ _ _ _ _ h

theorem runEntries_failed_mono (ps : List ProviderInfo) (env : Env)
    (total : Nat) (entries : List String) (i : Nat) (st : ProcState) (j : Nat)
    (h : st.failed.getD j false = true) :
    (runEntries ps env total entries i st).2.1.failed.getD j false = true := by
  induction entries generalizing i st with
  | nil => exact h
  | cons e rest ih =>
    simp only [runEntries]
    exact ih _ _ (processEntry_failed_mono _ _ _ _ _ _ _ h)

theorem runEntries_not_called_of_failed (ps : List ProviderInfo) (env : Env)
    (total : Nat) (entries : List String) (i : Nat) (st : ProcState) (j : Nat)
    (h : st.failed.getD j false = true) :
    j ∉ providerCalls (runEntries ps env total entries i st).2.2 := by
  induction entries generalizing i st with
  | nil => simp [runEntries, providerCalls]
  | cons e rest ih =>
    simp only [runEntries, providerCalls_append, List.mem_append, not_or]
    constructor
    · intro hmem
      exact lookupLoop_not_called_of_failed ps (env.adapters i) ps.length st j h
        (processEntry_calls_sub ps env total i e st j hmem)
    · exact ih _ _ (processEntry_failed_mono _ _ _ _ _ _ _ h)

theorem processEntry_input (ps : List ProviderInfo) (env : Env)
    (total i : Nat) (e : String) (st : ProcState) :
    (processEntry ps env total i e st).1.input = e := by
  by_cases hv : env.validIp e = true
  · simp [processEntry, hv]
  · by_cases hd : pyFalsy (env.dns e) = true
    · simp [processEntry, hv, hd]
    · simp [processEntry, hv, hd]

theorem runEntries_inputs (ps : List ProviderInfo) (env : Env)
    (total : Nat) (entries : List String) (i : Nat) (st : ProcState) :
    (runEntries ps env total entries i st).1.map Record.input = entries := by
  induction entries generalizing i st with
  | nil => rfl
  | cons e rest ih =>
    simp only [runEntries, List.map_cons]
    rw [processEntry_input, ih]

theorem lookup_all_failed_eq (ps : List ProviderInfo) (oracle : Nat → AdapterTriple)
    (st : ProcState)
    (hall : ∀ k, k < ps.length → st.failed.getD k false = true)
    (hc : st.cursor < ps.length) :
    lookup_ip_with_fallback ps oracle st = ⟨sentinelResult, st, [], ps.length⟩ := by
  rw [lookup_ip_with_fallback, lookupLoop_all_failed ps oracle ps.length st hall hc]
  have hcur : (st.cursor + ps.length) % ps.length = st.cursor := by
    rw [Nat.add_mod_right, Nat.mod_eq_of_lt hc]
  rw [hcur]

theorem processEntry_all_failed_state (ps : List ProviderInfo) (env : Env)
    (total i : Nat) (e : String) (st : ProcState)
    (hall : ∀ k, k < ps.length → st.failed.getD k false = true)
    (hc : st.cursor < ps.length) :
    (processEntry ps env total i e st).2.1 = st := by
  rcases processEntry_state ps env total i e st with hst | hst
  · exact hst
  · rw [hst, lookup_all_failed_eq ps (env.adapters i) st hall hc]

theorem runEntries_all_failed_no_calls (ps : List ProviderInfo) (env : Env)
    (total : Nat) (entries : List String) (i : Nat) (st : ProcState)
    (hall : ∀ k, k < ps.length → st.failed.getD k false = true)
    (hc : st.cursor < ps.length) :
    providerCalls (runEntries ps env total entries i st).2.2 = [] := by
  induction entries generalizing i st with
  | nil => rfl
  | cons e rest ih =>
    simp only [runEntries, providerCalls_append, List.append_eq_nil]
    constructor
    · rw [List.eq_nil_iff_forall_not_mem]
      intro j hj
      have hjc := processEntry_calls_sub ps env total i e st j hj
      rw [lookup_all_failed_eq ps (env.adapters i) st hall hc] at hjc
      simp at hjc
    · rw [processEntry_all_failed_state ps env total i e st hall hc]
      exact ih _ _ hall hc

theorem dnsCalls_append (a b : List Event) :
    dnsCalls (a ++ b) = dnsCalls a ++ dnsCalls b :=
  List.filterMap_append _ _ _

theorem dnsCalls_map_calls (l : List Nat) :
    dnsCalls (l.map Event.providerCall) = [] := by
  induction l with
  | nil => rfl
  | cons a as ih => simp [dnsCalls, List.filterMap_cons]

theorem dnsCalls_pacing (d : Rat) (i total : Nat) :
    dnsCalls (pacingEvents d i total) = [] := by
  by_cases h : 0 < d ∧ i < total
  · simp [pacingEvents, dnsCalls, h, List.filterMap_cons]
  · simp [pacingEvents, dnsCalls, h, List.filterMap_cons]

/-! ### Concrete data for evaluating the development on closed inputs -/

/-- A successful adapter return used to exercise the theorems. -/
def okTriple : AdapterTriple := ⟨some "Acme Corp", some "CA, US", true⟩

/-- The rate-limited adapter return `(None, None, False)`. -/
def rlTriple : AdapterTriple := ⟨none, none, false⟩

/-- An environment where every entry is a valid IP literal and every
provider answers successfully. -/
def okEnv : Env := ⟨fun _ => true, fun _ => some "9.9.9.9", fun _ _ => okTriple⟩

/-- An environment where every entry is a valid IP literal and every
provider is rate-limited. -/
def rlEnv : Env := ⟨fun _ => true, fun _ => none, fun _ _ => rlTriple⟩

/-- An environment where no entry is a valid IP literal and DNS always
fails. -/
def dnsFailEnv : Env := ⟨fun _ => false, fun _ => none, fun _ _ => okTriple⟩

/-! ### The claims -/

/-- C1: For every run and every provider, once that provider returns a
rate-limit outcome during any address lookup, its failed flag is set to
true and is never reset, and its lookup function is never invoked again
for any subsequent address in that run.  Formally: (a) from any state in
which provider j is marked failed, the flag is still set after running any
further list of entries and j's lookup function is invoked for none of
them; (b) a lookup during which provider j was invoked and returned a
rate-limit outcome leaves j's failed flag set. -/
theorem c1_rate_limit_monotone_disable (ps : List ProviderInfo) (env : Env)
    (total : Nat) (entries : List String) (i : Nat) (st : ProcState) (j : Nat)
    (hj : st.failed.getD j false = true) :
    ((runEntries ps env total entries i st).2.1.failed.getD j false = true ∧
     j ∉ providerCalls (runEntries ps env total entries i st).2.2) ∧
    (∀ oracle : Nat → AdapterTriple, ∀ st0 : ProcState,
      st0.failed.length = ps.length → st0.cursor < ps.length →
      (oracle j).success = false →
      j ∈ (lookup_ip_with_fallback ps oracle st0).calls →
      (lookup_ip_with_fallback ps oracle st0).st.failed.getD j false = true) :=
  ⟨⟨runEntries_failed_mono ps env total entries i st j hj,
    runEntries_not_called_of_failed ps env total entries i st j hj⟩,
   fun oracle st0 hlen hc hrl hmem =>
     lookupLoop_ratelimited_failed ps oracle ps.length st0 j hlen hc hrl hmem⟩

theorem c1_witness :
    ((⟨[true, false, false, false], 0⟩ : ProcState).failed.getD 0 false = true) ∧
    ((runEntries API_PROVIDERS okEnv 2 ["8.8.8.8", "1.1.1.1"] 1
        ⟨[true, false, false, false], 0⟩).2.1.failed.getD 0 false = true ∧
     0 ∉ providerCalls (runEntries API_PROVIDERS okEnv 2 ["8.8.8.8", "1.1.1.1"] 1
        ⟨[true, false, false, false], 0⟩).2.2) ∧
    ((lookup_ip_with_fallback API_PROVIDERS (fun _ => rlTriple)
        ⟨[false, false, false, false], 0⟩).st.failed.getD 0 false = true) :=
  ⟨by decide,
   (c1_rate_limit_monotone_disable API_PROVIDERS okEnv 2 ["8.8.8.8", "1.1.1.1"] 1
      ⟨[true, false, false, false], 0⟩ 0 (by decide)).1,
   (c1_rate_limit_monotone_disable API_PROVIDERS okEnv 2 ["8.8.8.8", "1.1.1.1"] 1
      ⟨[true, false, false, false], 0⟩ 0 (by decide)).2
     (fun _ => rlTriple) ⟨[false, false, false, false], 0⟩
     (by decide) (by decide) (by decide) (by decide)⟩

/-- C2: If all registered providers are disabled when the fallback
resolver is called, it returns exactly the sentinel tuple
`("All APIs exhausted", "N/A", "None", 0)` without invoking any provider's
lookup function (zero invocations recorded), leaves the failed flags (and
the cursor) unchanged, and for every list of subsequent addresses the run
records zero provider invocations. -/
theorem c2_all_disabled_sentinel (ps : List ProviderInfo)
    (oracle : Nat → AdapterTriple) (env : Env) (total : Nat)
    (entries : List String) (i : Nat) (st : ProcState)
    (hall : ∀ k, k < ps.length → st.failed.getD k false = true)
    (hc : st.cursor < ps.length) :
    lookup_ip_with_fallback ps oracle st = ⟨sentinelResult, st, [], ps.length⟩ ∧
    providerCalls (runEntries ps env total entries i st).2.2 = [] :=
  ⟨lookup_all_failed_eq ps oracle st hall hc,
   runEntries_all_failed_no_calls ps env total entries i st hall hc⟩

theorem c2_witness :
    ((∀ k, k < API_PROVIDERS.length →
        (⟨[true, true, true, true], 2⟩ : ProcState).failed.getD k false = true) ∧
      (2 : Nat) < API_PROVIDERS.length) ∧
    lookup_ip_with_fallback API_PROVIDERS (fun _ => okTriple) ⟨[true, true, true, true], 2⟩ =
      ⟨sentinelResult, ⟨[true, true, true, true], 2⟩, [], 4⟩ ∧
    providerCalls (runEntries API_PROVIDERS okEnv 2 ["8.8.8.8", "1.1.1.1"] 1
      ⟨[true, true, true, true], 2⟩).2.2 = [] :=
  ⟨⟨by decide, by decide⟩,
   (c2_all_disabled_sentinel API_PROVIDERS (fun _ => okTriple) okEnv 2
      ["8.8.8.8", "1.1.1.1"] 1 ⟨[true, true, true, true], 2⟩ (by decide) (by decide)).1,
   (c2_all_disabled_sentinel API_PROVIDERS (fun _ => okTriple) okEnv 2
      ["8.8.8.8", "1.1.1.1"] 1 ⟨[true, true, true, true], 2⟩ (by decide) (by decide)).2⟩

/-- C5: When the enabled provider at the cursor position returns a
success or soft-failure outcome (any `success = True` triple) for an
address, the resolver returns immediately with that provider's data and
the state — in particular the cursor — unchanged, and for the next
address the first provider invoked is again that same one (whatever its
outcome then), since its failed flag is still clear. -/
theorem c5_sticky_cursor (ps : List ProviderInfo) (oracle : Nat → AdapterTriple)
    (st : ProcState) (hc : st.cursor < ps.length)
    (hf : st.failed.getD st.cursor false = false)
    (hs : (oracle st.cursor).success = true) :
    lookup_ip_with_fallback ps oracle st =
      ⟨⟨(oracle st.cursor).owner, (oracle st.cursor).region,
        (ps.getD st.cursor ⟨"", 0⟩).name, (ps.getD st.cursor ⟨"", 0⟩).delay⟩,
       st, [st.cursor], 1⟩ ∧
    ∀ oracle2 : Nat → AdapterTriple,
      (lookup_ip_with_fallback ps oracle2 st).calls.head? = some st.cursor := by
  have hN : 0 < ps.length := Nat.lt_of_le_of_lt (Nat.zero_le _) hc
  obtain ⟨k, hk⟩ : ∃ k, ps.length = k + 1 :=
    ⟨ps.length - 1, (Nat.succ_pred_eq_of_pos hN).symm⟩
  constructor
  · rw [lookup_ip_with_fallback, hk]
    exact lookupLoop_success_step ps oracle k st hf hs
  · intro oracle2
    rw [lookup_ip_with_fallback, hk]
    exact lookupLoop_first_call ps oracle2 k st hf

theorem c5_witness :
    ((⟨[true, false, false, false], 1⟩ : ProcState).cursor < API_PROVIDERS.length ∧
     (⟨[true, false, false, false], 1⟩ : ProcState).failed.getD 1 false = false ∧
     okTriple.success = true) ∧
    lookup_ip_with_fallback API_PROVIDERS (fun _ => okTriple)
        ⟨[true, false, false, false], 1⟩ =
      ⟨⟨some "Acme Corp", some "CA, US", "ipapi.co", 2⟩,
       ⟨[true, false, false, false], 1⟩, [1], 1⟩ ∧
    (lookup_ip_with_fallback API_PROVIDERS (fun _ => rlTriple)
        ⟨[true, false, false, false], 1⟩).calls.head? = some 1 := by
  refine ⟨⟨by decide, by decide, by decide⟩, ?_, ?_⟩
  · have h := (c5_sticky_cursor API_PROVIDERS (fun _ => okTriple)
      ⟨[true, false, false, false], 1⟩ (by decide) (by decide) (by decide)).1
    rw [h]
    decide
  · exact (c5_sticky_cursor API_PROVIDERS (fun _ => okTriple)
      ⟨[true, false, false, false], 1⟩ (by decide) (by decide) (by decide)).2
      (fun _ => rlTriple)

/-- C6: Every call to the fallback resolver examines at most N loop
iterations (N = number of registered providers), counting both
disabled-provider skips and rate-limited attempts, invokes at most N
providers, and returns either the exhaustion sentinel
`("All APIs exhausted", "N/A", "None", 0)` or the data of some provider
that was invoked and answered with `success = True`.  The embedding is a
total function, so the loop terminates by construction with exactly this
bound. -/
theorem c6_bounded_examination (ps : List ProviderInfo)
    (oracle : Nat → AdapterTriple) (st : ProcState)
    (hc : st.cursor < ps.length) :
    (lookup_ip_with_fallback ps oracle st).examined ≤ ps.length ∧
    (lookup_ip_with_fallback ps oracle st).calls.length ≤ ps.length ∧
    ((lookup_ip_with_fallback ps oracle st).res = sentinelResult ∨
     ∃ j, j ∈ (lookup_ip_with_fallback ps oracle st).calls ∧ j < ps.length ∧
       (oracle j).success = true ∧
       (lookup_ip_with_fallback ps oracle st).res =
         ⟨(oracle j).owner, (oracle j).region,
          (ps.getD j ⟨"", 0⟩).name, (ps.getD j ⟨"", 0⟩).delay⟩) :=
  ⟨lookupLoop_examined_le ps oracle ps.length st,
   lookupLoop_calls_le ps oracle ps.length st,
   lookupLoop_res_shape ps oracle ps.length st hc⟩

theorem c6_witness :
    ((0 : Nat) < API_PROVIDERS.length) ∧
    (lookup_ip_with_fallback API_PROVIDERS (fun _ => rlTriple)
        ⟨[false, false, false, false], 0⟩).examined ≤ API_PROVIDERS.length ∧
    (lookup_ip_with_fallback API_PROVIDERS (fun _ => rlTriple)
        ⟨[false, false, false, false], 0⟩).calls.length ≤ API_PROVIDERS.length ∧
    ((lookup_ip_with_fallback API_PROVIDERS (fun _ => rlTriple)
        ⟨[false, false, false, false], 0⟩).res = sentinelResult ∨
     ∃ j, j ∈ (lookup_ip_with_fallback API_PROVIDERS (fun _ => rlTriple)
        ⟨[false, false, false, false], 0⟩).calls ∧ j < API_PROVIDERS.length ∧
       ((fun _ => rlTriple) j).success = true ∧
       (lookup_ip_with_fallback API_PROVIDERS (fun _ => rlTriple)
          ⟨[false, false, false, false], 0⟩).res =
         ⟨((fun _ => rlTriple) j).owner, ((fun _ => rlTriple) j).region,
          (API_PROVIDERS.getD j ⟨"", 0⟩).name, (API_PROVIDERS.getD j ⟨"", 0⟩).delay⟩) :=
  ⟨by decide,
   c6_bounded_examination API_PROVIDERS (fun _ => rlTriple)
     ⟨[false, false, false, false], 0⟩ (by decide)⟩

/-- C7: For every input, the orchestrator produces exactly one result
record per non-blank input line, in the same order as the input lines
(the records' `input` fields are exactly the stripped non-blank lines, in
order).  The orchestrator is a total function of its inputs — every
adapter/DNS outcome yields a record rather than an exception — so it
never raises for a single bad address. -/
theorem c7_one_record_per_line (ps : List ProviderInfo) (env : Env)
    (lines : List String) (st : ProcState) :
    ∃ recs, (process_file ps env (some lines) st).1 = some recs ∧
      recs.map Record.input = nonBlankLines lines ∧
      recs.length = (nonBlankLines lines).length := by
  refine ⟨(runEntries ps env (nonBlankLines lines).length (nonBlankLines lines) 1 st).1,
    rfl, runEntries_inputs ps env _ _ 1 st, ?_⟩
  have h := runEntries_inputs ps env (nonBlankLines lines).length (nonBlankLines lines) 1 st
  calc (runEntries ps env (nonBlankLines lines).length (nonBlankLines lines) 1 st).1.length
      = ((runEntries ps env (nonBlankLines lines).length (nonBlankLines lines) 1 st).1.map
          Record.input).length := (List.length_map _ _).symm
    _ = (nonBlankLines lines).length := by rw [h]

/-- C9: The registry cursor stays a valid index: it starts at 0, remains
below N across any resolver call started in range, and a fully-exhausted
lookup (all N providers disabled, hence N skips) performs exactly N loop
iterations and leaves the cursor equal to its value before the call. -/
theorem c9_cursor_invariant (ps : List ProviderInfo)
    (oracle : Nat → AdapterTriple) (st : ProcState)
    (hlen : st.failed.length = ps.length) (hc : st.cursor < ps.length) :
    (initState ps).cursor = 0 ∧
    (lookup_ip_with_fallback ps oracle st).st.cursor < ps.length ∧
    ((∀ k, k < ps.length → st.failed.getD k false = true) →
      (lookup_ip_with_fallback ps oracle st).examined = ps.length ∧
      (lookup_ip_with_fallback ps oracle st).st.cursor = st.cursor) := by
  refine ⟨rfl, (lookupLoop_wf ps oracle ps.length st hlen hc).2, fun hall => ?_⟩
  rw [lookup_all_failed_eq ps oracle st hall hc]
  exact ⟨rfl, rfl⟩

theorem c9_witness :
    ((⟨[true, true, true, true], 3⟩ : ProcState).failed.length = API_PROVIDERS.length ∧
     (⟨[true, true, true, true], 3⟩ : ProcState).cursor < API_PROVIDERS.length ∧
     (∀ k, k < API_PROVIDERS.length →
       (⟨[true, true, true, true], 3⟩ : ProcState).failed.getD k false = true)) ∧
    (initState API_PROVIDERS).cursor = 0 ∧
    (lookup_ip_with_fallback API_PROVIDERS (fun _ => okTriple)
        ⟨[true, true, true, true], 3⟩).st.cursor < API_PROVIDERS.length ∧
    (lookup_ip_with_fallback API_PROVIDERS (fun _ => okTriple)
        ⟨[true, true, true, true], 3⟩).examined = API_PROVIDERS.length ∧
    (lookup_ip_with_fallback API_PROVIDERS (fun _ => okTriple)
        ⟨[true, true, true, true], 3⟩).st.cursor = 3 := by
  have h := c9_cursor_invariant API_PROVIDERS (fun _ => okTriple)
    ⟨[true, true, true, true], 3⟩ (by decide) (by decide)
  exact ⟨⟨by decide, by decide, by decide⟩, h.1, h.2.1,
    (h.2.2 (by decide)).1, (h.2.2 (by decide)).2⟩

/-- C8: (a) For an entry that is a syntactically valid IP literal, the
DNS resolver is never invoked (no DNS event in the entry's trace), the
literal itself is recorded as the looked-up IP, and the provider
invocations of the entry are exactly those of the fallback resolver on
the unchanged registry state.  (b) For an entry whose DNS resolution
fails, no provider is attempted and the recorded result has owner
"DNS resolution failed" and ip, region and api fields "N/A". -/
theorem c8_literal_skips_dns (ps : List ProviderInfo) (env : Env)
    (total i : Nat) (entry : String) (st : ProcState) :
    (env.validIp entry = true →
      dnsCalls (processEntry ps env total i entry st).2.2 = [] ∧
      (processEntry ps env total i entry st).1.ip = entry ∧
      providerCalls (processEntry ps env total i entry st).2.2 =
        (lookup_ip_with_fallback ps (env.adapters i) st).calls) ∧
    (env.validIp entry = false → env.dns entry = none →
      processEntry ps env total i entry st =
        (⟨entry, "N/A", some "DNS resolution failed", some "N/A", "N/A"⟩, st,
         [Event.dnsCall entry])) := by
  constructor
  · intro hv
    have h1 : (processEntry ps env total i entry st).2.2 =
        (lookup_ip_with_fallback ps (env.adapters i) st).calls.map Event.providerCall ++
          pacingEvents (lookup_ip_with_fallback ps (env.adapters i) st).res.delay i total := by
      simp [processEntry, hv]
    refine ⟨?_, by simp [processEntry, hv], ?_⟩
    · rw [h1, dnsCalls_append, dnsCalls_map_calls, dnsCalls_pacing]
      rfl
    · rw [h1, providerCalls_append, providerCalls_map_calls, providerCalls_pacing,
        List.append_nil]
  · intro hv hd
    have hf : pyFalsy (env.dns entry) = true := by rw [hd]; rfl
    simp [processEntry, hv, hf]

theorem c8_witness :
    (okEnv.validIp "8.8.8.8" = true ∧
     dnsCalls (processEntry API_PROVIDERS okEnv 1 1 "8.8.8.8"
        (initState API_PROVIDERS)).2.2 = [] ∧
     (processEntry API_PROVIDERS okEnv 1 1 "8.8.8.8"
        (initState API_PROVIDERS)).1.ip = "8.8.8.8" ∧
     providerCalls (processEntry API_PROVIDERS okEnv 1 1 "8.8.8.8"
        (initState API_PROVIDERS)).2.2 =
       (lookup_ip_with_fallback API_PROVIDERS (okEnv.adapters 1)
          (initState API_PROVIDERS)).calls) ∧
    (dnsFailEnv.validIp "badhost.invalid" = false ∧
     dnsFailEnv.dns "badhost.invalid" = none ∧
     processEntry API_PROVIDERS dnsFailEnv 1 1 "badhost.invalid"
        (initState API_PROVIDERS) =
       (⟨"badhost.invalid", "N/A", some "DNS resolution failed", some "N/A", "N/A"⟩,
        initState API_PROVIDERS, [Event.dnsCall "badhost.invalid"])) :=
  ⟨⟨rfl, (c8_literal_skips_dns API_PROVIDERS okEnv 1 1 "8.8.8.8"
      (initState API_PROVIDERS)).1 rfl⟩,
   ⟨rfl, rfl, (c8_literal_skips_dns API_PROVIDERS dnsFailEnv 1 1 "badhost.invalid"
      (initState API_PROVIDERS)).2 rfl rfl⟩⟩

/-- C10: For an entry whose DNS resolution fails, the loop body ends at
the `continue`: the entry's whole trace is the single DNS attempt, so the
pacing step at the bottom of the loop is never reached (no pacing event
and no sleep of any length, as opposed to a pause of zero seconds).  By
contrast, every entry that reaches the fallback resolver does reach the
pacing step. -/
theorem c10_dns_failure_skips_pacing (ps : List ProviderInfo) (env : Env)
    (total i : Nat) (entry : String) (st : ProcState)
    (hv : env.validIp entry = false) (hd : env.dns entry = none) :
    (processEntry ps env total i entry st).2.2 = [Event.dnsCall entry] ∧
    (∀ d : Rat, Event.pacingStep d ∉ (processEntry ps env total i entry st).2.2 ∧
      Event.sleep d ∉ (processEntry ps env total i entry st).2.2) ∧
    (∀ e2 : String, ∀ st2 : ProcState, env.validIp e2 = true →
      Event.pacingStep
          (lookup_ip_with_fallback ps (env.adapters i) st2).res.delay ∈
        (processEntry ps env total i e2 st2).2.2) := by
  have hf : pyFalsy (env.dns entry) = true := by rw [hd]; rfl
  have h1 : (processEntry ps env total i entry st).2.2 = [Event.dnsCall entry] := by
    simp [processEntry, hv, hf]
  refine ⟨h1, fun d => by rw [h1]; exact ⟨by simp, by simp⟩, fun e2 st2 hv2 => ?_⟩
  have h2 : (processEntry ps env total i e2 st2).2.2 =
      (lookup_ip_with_fallback ps (env.adapters i) st2).calls.map Event.providerCall ++
        pacingEvents (lookup_ip_with_fallback ps (env.adapters i) st2).res.delay i total := by
    simp [processEntry, hv2]
  rw [h2]
  exact List.mem_append_right _ (List.mem_cons_self _ _)

/-- An environment in which "1.1.1.1" is a valid IP literal, everything
else is not, and DNS always fails. -/
def mixedEnv : Env := ⟨fun s => s == "1.1.1.1", fun _ => none, fun _ _ => okTriple⟩

theorem c10_witness :
    (mixedEnv.validIp "badhost.invalid" = false ∧
     mixedEnv.dns "badhost.invalid" = none) ∧
    (processEntry API_PROVIDERS mixedEnv 3 2 "badhost.invalid"
        (initState API_PROVIDERS)).2.2 = [Event.dnsCall "badhost.invalid"] ∧
    (Event.pacingStep 0 ∉ (processEntry API_PROVIDERS mixedEnv 3 2 "badhost.invalid"
        (initState API_PROVIDERS)).2.2 ∧
     Event.sleep 0 ∉ (processEntry API_PROVIDERS mixedEnv 3 2 "badhost.invalid"
        (initState API_PROVIDERS)).2.2) ∧
    Event.pacingStep
        (lookup_ip_with_fallback API_PROVIDERS (mixedEnv.adapters 2)
          (initState API_PROVIDERS)).res.delay ∈
      (processEntry API_PROVIDERS mixedEnv 3 2 "1.1.1.1"
        (initState API_PROVIDERS)).2.2 :=
  ⟨⟨rfl, rfl⟩,
   (c10_dns_failure_skips_pacing API_PROVIDERS mixedEnv 3 2 "badhost.invalid"
      (initState API_PROVIDERS) rfl rfl).1,
   (c10_dns_failure_skips_pacing API_PROVIDERS mixedEnv 3 2 "badhost.invalid"
      (initState API_PROVIDERS) rfl rfl).2.1 0,
   (c10_dns_failure_skips_pacing API_PROVIDERS mixedEnv 3 2 "badhost.invalid"
      (initState API_PROVIDERS) rfl rfl).2.2 "1.1.1.1" (initState API_PROVIDERS) rfl⟩

/-- C3 as stated is false: a provider-reported unsuccessful lookup is one
of the enumerated non-rate-limit failures, yet `lookup_ipapi_com` maps a
payload with `status = "fail"` to `("Unknown", "Unknown", True)` — its
region field is `"Unknown"`, not the literal `"N/A"` the claim requires
(the same holds for the other three adapters on their
provider-reported-failure branches). -/
theorem c3_counterexample :
    (lookup_ipapi_com (HttpResp.ok ⟨some "fail", none, none, none⟩)).success = true ∧
    (lookup_ipapi_com (HttpResp.ok ⟨some "fail", none, none, none⟩)).region =
      some "Unknown" ∧
    (lookup_ipapi_com (HttpResp.ok ⟨some "fail", none, none, none⟩)).region ≠
      some "N/A" := by
  refine ⟨rfl, rfl, ?_⟩
  decide

/-- C3 (amended): for every adapter, a network error / malformed payload
(the generic exception path) and a non-200/non-429 HTTP status map to a
used (`success = True`) outcome with a human-readable message as owner and
the literal `"N/A"` as region; a provider-reported unsuccessful lookup
also maps to a used outcome, but with owner `"Unknown"` and region
`"Unknown"` rather than `"N/A"`.  None of these are rate-limit outcomes,
so none disables the provider or triggers fallback. -/
theorem c3_soft_failure_amended :
    (∀ code : Nat, code ≠ 429 →
      lookup_ipapi_com (HttpResp.httpError code) =
        ⟨some ("HTTP Error: " ++ toString code), some "N/A", true⟩ ∧
      lookup_ipapi_co (HttpResp.httpError code) =
        ⟨some ("HTTP Error: " ++ toString code), some "N/A", true⟩ ∧
      lookup_ipwhois_io (HttpResp.httpError code) =
        ⟨some ("HTTP Error: " ++ toString code), some "N/A", true⟩ ∧
      lookup_ipwhois_app (HttpResp.httpError code) =
        ⟨some ("HTTP Error: " ++ toString code), some "N/A", true⟩) ∧
    (∀ msg : String,
      lookup_ipapi_com (HttpResp.exn msg) = ⟨some ("Error: " ++ msg), some "N/A", true⟩ ∧
      lookup_ipapi_co (HttpResp.exn msg) = ⟨some ("Error: " ++ msg), some "N/A", true⟩ ∧
      lookup_ipwhois_io (HttpResp.exn msg) = ⟨some ("Error: " ++ msg), some "N/A", true⟩ ∧
      lookup_ipwhois_app (HttpResp.exn msg) = ⟨some ("Error: " ++ msg), some "N/A", true⟩) ∧
    (∀ d : IpapiComData, d.status ≠ some "success" →
      lookup_ipapi_com (HttpResp.ok d) = ⟨some "Unknown", some "Unknown", true⟩) ∧
    (∀ d : IpapiCoData, d.error = true → d.reason ≠ some "RateLimited" →
      lookup_ipapi_co (HttpResp.ok d) = ⟨some "Unknown", some "Unknown", true⟩) ∧
    (∀ d : IpwhoisIoData, d.success = false →
      lookup_ipwhois_io (HttpResp.ok d) = ⟨some "Unknown", some "Unknown", true⟩) ∧
    (∀ d : IpwhoisAppData, d.success = false →
      lookup_ipwhois_app (HttpResp.ok d) = ⟨some "Unknown", some "Unknown", true⟩) := by
  refine ⟨fun code hcode => ?_, fun msg => ⟨rfl, rfl, rfl, rfl⟩,
    fun d hd => ?_, fun d hd hr => ?_, fun d hd => ?_, fun d hd => ?_⟩
  · exact ⟨by simp [lookup_ipapi_com, hcode], by simp [lookup_ipapi_co, hcode],
      by simp [lookup_ipwhois_io, hcode], by simp [lookup_ipwhois_app, hcode]⟩
  · simp [lookup_ipapi_com, hd]
  · simp [lookup_ipapi_co, hd, hr]
  · simp [lookup_ipwhois_io, hd]
  · simp [lookup_ipwhois_app, hd]

theorem c3_amended_witness :
    ((500 : Nat) ≠ 429 ∧
     lookup_ipapi_com (HttpResp.httpError 500) =
       ⟨some ("HTTP Error: " ++ toString 500), some "N/A", true⟩) ∧
    lookup_ipapi_co (HttpResp.exn "timed out") =
      ⟨some ("Error: " ++ "timed out"), some "N/A", true⟩ ∧
    ((some "fail" : Option String) ≠ some "success" ∧
     lookup_ipapi_com (HttpResp.ok ⟨some "fail", none, none, none⟩) =
       ⟨some "Unknown", some "Unknown", true⟩) ∧
    lookup_ipapi_co (HttpResp.ok ⟨true, some "quota", none, none, none⟩) =
      ⟨some "Unknown", some "Unknown", true⟩ ∧
    lookup_ipwhois_io (HttpResp.ok ⟨false, none, none, none⟩) =
      ⟨some "Unknown", some "Unknown", true⟩ ∧
    lookup_ipwhois_app (HttpResp.ok ⟨false, none, none, none, none⟩) =
      ⟨some "Unknown", some "Unknown", true⟩ :=
  ⟨⟨by decide, (c3_soft_failure_amended.1 500 (by decide)).1⟩,
   (c3_soft_failure_amended.2.1 "timed out").2.1,
   ⟨by decide, c3_soft_failure_amended.2.2.1 ⟨some "fail", none, none, none⟩ (by decide)⟩,
   c3_soft_failure_amended.2.2.2.1 ⟨true, some "quota", none, none, none⟩ rfl (by decide),
   c3_soft_failure_amended.2.2.2.2.1 ⟨false, none, none, none⟩ rfl,
   c3_soft_failure_amended.2.2.2.2.2 ⟨false, none, none, none, none⟩ rfl⟩

/-- C4 as stated is false: with the correct argument count and a missing
(or unreadable) input file, `process_file` prints the error and simply
returns, so `main` falls through and the process terminates normally —
the run does abort before any network activity (no events, no results),
but the exit code is 0, not non-zero. -/
theorem c4_counterexample :
    (mainRun 3 okEnv none).1 = 0 ∧
    (mainRun 3 okEnv none).2.1 = none ∧
    (mainRun 3 okEnv none).2.2.2 = [] :=
  ⟨rfl, rfl, rfl⟩

/-- C4 (amended): if the input file is missing or unreadable, the error
is reported to the user and the run aborts before any network activity —
no provider lookup and no DNS resolution is attempted and no results are
produced — but the process exits with code 0 (`process_file` returns
normally and `main` never calls `sys.exit` on this path; only the
wrong-argument-count path exits non-zero). -/
theorem c4_input_error_aborts (env : Env) :
    (mainRun 3 env none).1 = 0 ∧
    (mainRun 3 env none).2.1 = none ∧
    (mainRun 3 env none).2.2.2 = [] ∧
    ∀ argc : Nat, argc ≠ 3 → (mainRun argc env none).1 = 1 := by
  refine ⟨rfl, rfl, rfl, fun argc hargc => ?_⟩
  simp [mainRun, hargc]

theorem c4_witness :
    (2 : Nat) ≠ 3 ∧ (mainRun 2 okEnv none).1 = 1 :=
  ⟨by decide, (c4_input_error_aborts okEnv).2.2.2 2 (by decide)⟩
